import Mathlib

/-!
Verification of the session protocol and interactive-evaluation loop of
vendetta-debug (src/index.js): a WebSocket-based remote debugging console.

The JavaScript source is shallowly embedded below.  JS numbers relevant to
the program (the `silent` level, after the startup `Number.isNaN` check) are
modelled as rationals; JS exceptions are modelled with `Except`; the
event-handler closures (`ws.on("message")`, `ws.on("close")`, the REPL
`eval`/`writer`) become pure functions from explicit session state to a
result record that also carries the observable side effects (console
writes, websocket sends, callback invocations, prompt redraws).
-/

namespace VendettaDebug

/-- Model of a JavaScript exception value. -/
inductive JsError where
  | syntaxError (msg : String)
  | referenceError (msg : String)
  | typeError (msg : String)
  | thrown (msg : String)
deriving Repr, DecidableEq

/-- Observable terminal-side effects of the program. -/
inductive Output where
  | console (line : String)
  | consoleError (e : JsError)
  | displayPrompt
deriving Repr, DecidableEq

/- ansi-colors styles used by the program (COLORS table at src/index.js:34-45).
Each style function wraps its argument in the corresponding ANSI codes. -/

namespace COLORS

namespace client

def info (s : String) : String := "\x1b[36m" ++ s ++ "\x1b[39m"

def warning (s : String) : String := "\x1b[33m" ++ s ++ "\x1b[39m"

def error (s : String) : String := "\x1b[31m" ++ s ++ "\x1b[39m"

end client

namespace debugger

def info (s : String) : String := "\x1b[35m\x1b[1m" ++ s ++ "\x1b[22m\x1b[39m"

def warning (s : String) : String := "\x1b[33m\x1b[1m" ++ s ++ "\x1b[22m\x1b[39m"

def error (s : String) : String := "\x1b[31m\x1b[1m" ++ s ++ "\x1b[22m\x1b[39m"

end debugger

end COLORS

/-- `colorise(message, source, color)` (src/index.js:96-98):
prefixes a colored `[source] ` tag. -/
def colorise (message : String) (source : String) (color : String → String) : String :=
  color ("[" ++ source ++ "] ") ++ message

/-- `safeLog(data)` (src/index.js:99-101): `console.log` prefixed with a
newline when the prompt is currently shown. -/
def safeLog (isPrompting : Bool) (data : String) : List Output :=
  [Output.console ((if isPrompting then "\n" else "") ++ data)]

/-!
Model of `JSON.parse` — the JS built-in the program applies to inbound
payloads (src/index.js:104) — restricted to the payload grammar the wire
protocol uses: JSON values whose numbers are integer numerals.  A
fractional or exponent numeral is not produced by the log envelope
`\x7bmessage, level\x7d`, so the model treats it as a parse failure.
-/

/-- JSON values as produced by `JSON.parse`. -/
inductive Json where
  | null
  | bool (b : Bool)
  | num (n : Int)
  | str (s : String)
  | arr (elems : List Json)
  | obj (fields : List (String × Json))

/-- Skip JSON whitespace. -/
def skipWs : List Char → List Char
  | [] => []
  | c :: rest =>
    if c = ' ' ∨ c = '\t' ∨ c = '\n' ∨ c = '\r' then skipWs rest else c :: rest

/-- Hexadecimal digit value. -/
def hexVal (c : Char) : Option Nat :=
  if '0' ≤ c ∧ c ≤ '9' then some (c.toNat - 48)
  else if 'a' ≤ c ∧ c ≤ 'f' then some (c.toNat - 87)
  else if 'A' ≤ c ∧ c ≤ 'F' then some (c.toNat - 55)
  else none

/-- Parse the body of a JSON string literal (after the opening quote),
returning the decoded string and the rest of the input. -/
def parseStr (fuel : Nat) (cs : List Char) : Option (String × List Char) :=
  match fuel, cs with
  | 0, _ => none
  | _, [] => none
  | fuel + 1, c :: rest =>
    if c = '"' then some ("", rest)
    else if c = '\\' then
      match rest with
      | 'u' :: h1 :: h2 :: h3 :: h4 :: rest4 =>
        match hexVal h1, hexVal h2, hexVal h3, hexVal h4 with
        | some a, some b, some c2, some d =>
          let n := ((a * 16 + b) * 16 + c2) * 16 + d
          (parseStr fuel rest4).map fun p => (String.singleton (Char.ofNat n) ++ p.1, p.2)
        | _, _, _, _ => none
      | e :: rest2 =>
        let dec : Option Char :=
          if e = '"' then some '"'
          else if e = '\\' then some '\\'
          else if e = '/' then some '/'
          else if e = 'n' then some '\n'
          else if e = 't' then some '\t'
          else if e = 'r' then some '\r'
          else if e = 'b' then some '\x08'
          else if e = 'f' then some '\x0c'
          else none
        match dec with
        | some ch => (parseStr fuel rest2).map fun p => (String.singleton ch ++ p.1, p.2)
        | none => none
      | [] => none
    else (parseStr fuel rest).map fun p => (String.singleton c ++ p.1, p.2)

/-- Digits to a natural number. -/
def digitsToNat (ds : List Char) : Nat :=
  ds.foldl (fun a c => a * 10 + (c.toNat - 48)) 0

/-- Parse an integer numeral (optional leading minus). -/
def parseIntLit (cs : List Char) : Option (Int × List Char) :=
  match cs with
  | '-' :: rest =>
    let ds := rest.takeWhile Char.isDigit
    if ds.isEmpty then none
    else some (-(digitsToNat ds : Int), rest.drop ds.length)
  | _ =>
    let ds := cs.takeWhile Char.isDigit
    if ds.isEmpty then none
    else some ((digitsToNat ds : Int), cs.drop ds.length)

mutual

/-- Parse one JSON value. -/
def parseValue (fuel : Nat) (cs : List Char) : Option (Json × List Char) :=
  match fuel with
  | 0 => none
  | fuel + 1 =>
    match skipWs cs with
    | [] => none
    | c :: rest =>
      if c = '"' then (parseStr fuel rest).map fun p => (Json.str p.1, p.2)
      else if c = '\x7b' then
        match skipWs rest with
        | '\x7d' :: r2 => some (Json.obj [], r2)
        | _ => (parseMembers fuel rest).map fun p => (Json.obj p.1, p.2)
      else if c = '[' then
        match skipWs rest with
        | ']' :: r2 => some (Json.arr [], r2)
        | _ => (parseElements fuel rest).map fun p => (Json.arr p.1, p.2)
      else if c = 't' then
        match rest with
        | 'r' :: 'u' :: 'e' :: r => some (Json.bool true, r)
        | _ => none
      else if c = 'f' then
        match rest with
        | 'a' :: 'l' :: 's' :: 'e' :: r => some (Json.bool false, r)
        | _ => none
      else if c = 'n' then
        match rest with
        | 'u' :: 'l' :: 'l' :: r => some (Json.null, r)
        | _ => none
      else (parseIntLit (c :: rest)).map fun p => (Json.num p.1, p.2)

/-- Parse the members of a JSON object (after the opening brace). -/
def parseMembers (fuel : Nat) (cs : List Char) : Option (List (String × Json) × List Char) :=
  match fuel with
  | 0 => none
  | fuel + 1 =>
    match skipWs cs with
    | '"' :: rest =>
      match parseStr fuel rest with
      | none => none
      | some (key, r1) =>
        match skipWs r1 with
        | ':' :: r2 =>
          match parseValue fuel r2 with
          | none => none
          | some (v, r3) =>
            match skipWs r3 with
            | ',' :: r4 => (parseMembers fuel r4).map fun p => ((key, v) :: p.1, p.2)
            | '\x7d' :: r4 => some ([(key, v)], r4)
            | _ => none
        | _ => none
    | _ => none

/-- Parse the elements of a JSON array (after the opening bracket). -/
def parseElements (fuel : Nat) (cs : List Char) : Option (List Json × List Char) :=
  match fuel with
  | 0 => none
  | fuel + 1 =>
    match parseValue fuel cs with
    | none => none
    | some (v, r1) =>
      match skipWs r1 with
      | ',' :: r2 => (parseElements fuel r2).map fun p => (v :: p.1, p.2)
      | ']' :: r2 => some ([v], r2)
      | _ => none

end

/-- `JSON.parse(data)`: parse a complete JSON document or throw a
`SyntaxError`. -/
def jsonParse (data : String) : Except JsError Json :=
  let cs := data.toList
  match parseValue (cs.length + 1) cs with
  | some (j, rest) =>
    if skipWs rest = [] then .ok j
    else .error (.syntaxError "Unexpected non-whitespace character after JSON")
  | none => .error (.syntaxError "Unexpected token in JSON")

/-- JS property access `obj.k` on a parsed JSON value: `undefined` (`none`)
unless the value is an object carrying the key; for duplicate keys
`JSON.parse` keeps the last occurrence. -/
def jsGet (j : Json) (k : String) : Option Json :=
  match j with
  | .obj fields => fields.reverse.lookup k
  | _ => none

mutual

/-- JS string coercion of a parsed JSON value. -/
def jsToStringJ : Json → String
  | .null => "null"
  | .bool true => "true"
  | .bool false => "false"
  | .num n => toString n
  | .str s => s
  | .arr xs => jsToStringList xs
  | .obj _ => "[object Object]"

/-- JS array-to-string: elements joined by commas. -/
def jsToStringList : List Json → String
  | [] => ""
  | [j] => jsToStringJ j
  | j :: rest => jsToStringJ j ++ "," ++ jsToStringList rest

end

/-- JS string coercion, `undefined` included. -/
def jsToString : Option Json → String
  | none => "undefined"
  | some j => jsToStringJ j

/-- `discordColorise(data)` (src/index.js:103-118): parse the inbound
payload as a JSON log envelope, colorize the `message` field by the
numeric `level` (0 info, 2 warning, 3 error — the JS `switch` compares
with strict equality), and tag the line with `[Vendetta]`.  Throws if
`JSON.parse` throws, or a `TypeError` when destructuring `null`. -/
def discordColorise (data : String) : Except JsError String :=
  match jsonParse data with
  | .error e => .error e
  | .ok .null => .error (.typeError "Cannot destructure property of null")
  | .ok j =>
    let message := jsGet j "message"
    let level := jsGet j "level"
    let message :=
      match level with
      | some (Json.num n) =>
        if n = 0 then COLORS.client.info (jsToString message)
        else if n = 2 then COLORS.client.warning (jsToString message)
        else if n = 3 then COLORS.client.error (jsToString message)
        else jsToString message
      | _ => jsToString message
    .ok (colorise message "Vendetta" COLORS.client.info)

/-- `discordLog(message)` (src/index.js:119-121): raw passthrough at
`silentLvl === 2`, otherwise colorized via `discordColorise`. -/
def discordLog (silentLvl : ℚ) (isPrompting : Bool) (message : String) :
    Except JsError (List Output) :=
  if silentLvl = 2 then .ok (safeLog isPrompting message)
  else (discordColorise message).map (safeLog isPrompting)

/-- `debuggerColorise(message)` (src/index.js:123-125). -/
def debuggerColorise (message : String) : String :=
  colorise message "Debugger" COLORS.debugger.info

/-- `debuggerLog(message)` (src/index.js:126-128).  The `silentLvl === 2`
branch reads the undefined identifier `messag`, so taking it throws a
`ReferenceError`. -/
def debuggerLog (silentLvl : ℚ) (isPrompting : Bool) (message : String) :
    Except JsError (List Output) :=
  if silentLvl = 2 then .error (.referenceError "messag is not defined")
  else .ok (safeLog isPrompting (debuggerColorise message))

/-- `debuggerWarning(message)` (src/index.js:129-131). -/
def debuggerWarning (isPrompting : Bool) (message : String) : List Output :=
  safeLog isPrompting (colorise message "Debugger" COLORS.debugger.warning)

/-- `debuggerError(error, isReturning)` (src/index.js:132-138): logs a
`[Debugger] Error` line; when `isReturning` it returns the error value
(first component `some error`), otherwise it `console.error`s it. -/
def debuggerError (isPrompting : Bool) (e : JsError) (isReturning : Bool) :
    Option JsError × List Output :=
  let outs := safeLog isPrompting (colorise "Error" "Debugger" COLORS.debugger.error)
  if isReturning then (some e, outs) else (none, outs ++ [Output.consoleError e])

/-!
Session state.  Per connection the program keeps the module-level flag
`isPrompting` (the spec's `promptVisible`) and the closure variable
`finishCallback` (the pending Command's completion callback, the spec's
`pendingReply` slot).  A callback is an arbitrary JS function
`cb(err, result)` that may itself throw — in the program it is the REPL
eval completion continuation, whose synchronous work includes
`writer`/`discordColorise` and can therefore throw on a non-JSON reply.
-/

/-- A pending completion callback `cb(err, result)`; it may throw. -/
def Callback : Type := Option JsError → Option String → Except JsError Unit

/-- The mutable session state read and written by the handlers. -/
structure ConnState where
  isPrompting : Bool
  finishCallback : Option Callback

/-- Result of running the `ws.on("message")` handler: the new state plus
the data values passed to the pending callback and the terminal output. -/
structure MsgResult where
  isPrompting : Bool
  finishCallback : Option Callback
  delivered : List String
  outputs : List Output

/-- The `ws.on("message")` handler (src/index.js:162-175).  The `try`
block either consumes the message as the pending Command's reply (and on
normal return clears the slot — note the clearing statement is skipped if
the callback throws) or classifies it via `discordLog`; a thrown error is
caught and routed to `debuggerError(e, false)`.  Afterwards
`isPrompting = true` and `rl.displayPrompt()` run unconditionally. -/
def onMessage (silentLvl : ℚ) (st : ConnState) (data : String) : MsgResult :=
  match st.finishCallback with
  | some cb =>
    match cb none (some data) with
    | .ok _ =>
      { isPrompting := true, finishCallback := none, delivered := [data],
        outputs := [Output.displayPrompt] }
    | .error e =>
      { isPrompting := true, finishCallback := some cb, delivered := [data],
        outputs := (debuggerError st.isPrompting e false).2 ++ [Output.displayPrompt] }
  | none =>
    match discordLog silentLvl st.isPrompting data with
    | .ok outs =>
      { isPrompting := true, finishCallback := none, delivered := [],
        outputs := outs ++ [Output.displayPrompt] }
    | .error e =>
      { isPrompting := true, finishCallback := none, delivered := [],
        outputs := (debuggerError st.isPrompting e false).2 ++ [Output.displayPrompt] }

/-- JS `"input".trim()`: strip leading and trailing JS whitespace. -/
def jsWhitespaceChar (c : Char) : Bool :=
  c = ' ' || c = '\t' || c = '\n' || c = '\r' || c = '\x0b' || c = '\x0c' ||
    c = '\u00a0' || c = '\ufeff' || c = '\u2028' || c = '\u2029'

/-- JS `String.prototype.trim`. -/
def jsTrim (s : String) : String :=
  let l := s.toList.dropWhile jsWhitespaceChar
  String.mk (l.reverse.dropWhile jsWhitespaceChar).reverse

/-- Hex digit character (lowercase). -/
def hexDigitChar (n : Nat) : Char :=
  if n < 10 then Char.ofNat (48 + n) else Char.ofNat (87 + n)

/-- Four-digit lowercase hex, as in `JSON.stringify` control-char escapes. -/
def hex4 (n : Nat) : String :=
  String.mk [hexDigitChar (n / 4096 % 16), hexDigitChar (n / 256 % 16),
    hexDigitChar (n / 16 % 16), hexDigitChar (n % 16)]

/-- Escape one character as `JSON.stringify` does inside a string. -/
def jsonEscapeChar (c : Char) : String :=
  if c = '"' then "\\\""
  else if c = '\\' then "\\\\"
  else if c = '\n' then "\\n"
  else if c = '\r' then "\\r"
  else if c = '\t' then "\\t"
  else if c = '\x08' then "\\b"
  else if c = '\x0c' then "\\f"
  else if c.toNat < 32 then "\\u" ++ hex4 c.toNat
  else String.singleton c

/-- `JSON.stringify` of a string value. -/
def jsonStringify (s : String) : String :=
  "\"" ++ String.join (s.toList.map jsonEscapeChar) ++ "\""

/-- The wire form of a Command (src/index.js:185-189): a request that
evaluates the operator input in the peer, formats the result with the
peer's inspect facility, prints it remotely and returns the raw value. -/
def wireEncode (input : String) : String :=
  "const res=(0, eval)(" ++ jsonStringify input ++
    ");let out=vendetta.metro.findByProps(\"inspect\").inspect(res,\x7bshowHidden:true\x7d);if(out!==\"undefined\")console.log(out);res"

/-- Result of the REPL `eval` handler: new state, websocket sends, the
invocations of the line's completion callback, and any uncaught throw. -/
structure EvalResult where
  isPrompting : Bool
  finishCallback : Option Callback
  sent : List String
  completions : List (Option JsError × Option String)
  uncaught : Option JsError

/-- The REPL `eval` handler (src/index.js:179-195).  Empty or
whitespace-only input (`!input.trim()`) completes immediately with `cb()`;
otherwise the prompt is suspended, the wire-encoded command is sent and
`cb` becomes the pending `finishCallback`.  A throw inside the `try` is
routed to `cb(e)`. -/
def replEval (st : ConnState) (input : String) (cb : Callback) : EvalResult :=
  if jsTrim input = "" then
    match cb none none with
    | .ok _ =>
      { isPrompting := st.isPrompting, finishCallback := st.finishCallback,
        sent := [], completions := [(none, none)], uncaught := none }
    | .error e =>
      match cb (some e) none with
      | .ok _ =>
        { isPrompting := st.isPrompting, finishCallback := st.finishCallback,
          sent := [], completions := [(none, none), (some e, none)], uncaught := none }
      | .error e2 =>
        { isPrompting := st.isPrompting, finishCallback := st.finishCallback,
          sent := [], completions := [(none, none), (some e, none)], uncaught := some e2 }
  else
    { isPrompting := false, finishCallback := some cb,
      sent := [wireEncode input], completions := [], uncaught := none }

/-- The value a REPL `writer` invocation produces. -/
inductive WriterRet where
  | errVal (e : JsError)
  | str (s : String)
deriving Repr, DecidableEq

/-- The data handed to the REPL `writer`: an `Error` instance or text. -/
inductive WriterData where
  | err (e : JsError)
  | text (s : String)

/-- The REPL `writer` (src/index.js:196-200): an `Error` payload goes to
`debuggerError(data, true)` (whose return value, the error itself, is the
writer result); any other payload goes through `discordColorise`. -/
def writer (isPrompting : Bool) (data : WriterData) :
    Except JsError (WriterRet × List Output) :=
  match data with
  | .err e => .ok (.errVal e, (debuggerError isPrompting e true).2)
  | .text s =>
    match discordColorise s with
    | .ok colored => .ok (.str colored, [])
    | .error err => .error err

/-- The `rl.on("close")` listener (src/index.js:204-206). -/
def onRlClose (silentLvl : ℚ) (isPrompting : Bool) : Except JsError (List Output) :=
  if silentLvl < 2 then
    debuggerLog silentLvl isPrompting "Closing debugger, press Ctrl+C to exit"
  else .ok []

/-- Result of the `ws.on("close")` handler. -/
structure CloseResult where
  isPrompting : Bool
  rlClosed : Bool
  delivered : List String
  outputs : List Output

/-- The `ws.on("close")` handler (src/index.js:208-212): optionally logs,
sets `isPrompting = false`, then `rl.close()` (which fires the REPL close
listener).  The pending `finishCallback` is never touched or invoked. -/
def onClose (silentLvl : ℚ) (st : ConnState) : Except JsError CloseResult :=
  match (if silentLvl < 2 then
          debuggerLog silentLvl st.isPrompting "Websocket has been closed"
        else .ok []) with
  | .error e => .error e
  | .ok outs1 =>
    match onRlClose silentLvl false with
    | .error e => .error e
    | .ok outs2 =>
      .ok { isPrompting := false, rlClosed := true, delivered := [],
            outputs := outs1 ++ outs2 }

/-- The `wss.on("listening")` handler (src/index.js:150-153). -/
def onListening (silentLvl : ℚ) (isPrompting : Bool) (port : Nat) :
    Except JsError (List Output) :=
  if silentLvl < 2 then
    debuggerLog silentLvl isPrompting ("Listening for connections on port " ++ toString port)
  else .ok []

/-- Result of the `wss.on("connection")` handler: the session state it
leaves behind and the payloads it sent. -/
structure ConnectionInit where
  state : ConnState
  sent : List String
  outputs : List Output

/-- The `wss.on("connection")` handler (src/index.js:154-214): optionally
logs, resets `isPrompting`, registers the message handler, starts the REPL
(after which `isPrompting = true` and no command is pending), and as its
last statement sends the on-connect payload when it is truthy (a defined,
non-empty string). -/
def onConnection (silentLvl : ℚ) (isPromptingBefore : Bool)
    (onConnectedCode : Option String) : Except JsError ConnectionInit :=
  match (if silentLvl < 2 then
          debuggerLog silentLvl isPromptingBefore
            "Connected to Discord over websocket, starting debug session"
        else .ok []) with
  | .error e => .error e
  | .ok outs =>
    let sent : List String :=
      match onConnectedCode with
      | some c => if c = "" then [] else [c]
      | none => []
    .ok { state := { isPrompting := true, finishCallback := none },
          sent := sent, outputs := outs }

/-- The startup `silent` validation (src/index.js:72-76): after the
`Number.isNaN` rejection, a numeric value is accepted unless
`silentLvl > 2 || silentLvl < 0`. -/
def silentAccepted (silentLvl : ℚ) : Bool :=
  if silentLvl > 2 ∨ silentLvl < 0 then false else true

/-- The welcome banner gate (src/index.js:141-146): printed when
`silentLvl < 1`. -/
def welcomeBannerShown (silentLvl : ℚ) : Bool :=
  if silentLvl < 1 then true else false

/-! Concrete callbacks and payloads used as instances in the theorems. -/

/-- A completion callback that returns normally. -/
def noopCb : Callback := fun _ _ => .ok ()

/-- A completion callback that throws — as the REPL completion
continuation does when the writer's `discordColorise` receives a
non-JSON reply. -/
def throwingCb : Callback := fun _ _ => .error (.thrown "boom")

/-- A structured log envelope carrying an error-level message. -/
def errorEnvelope : String := "\x7b\"message\":\"x\",\"level\":3\x7d"

/-! Helper lemmas shared by the claim theorems. -/

/-- A rational strictly below two is not two. -/
theorem ne_two_of_lt_two {lvl : ℚ} (h : lvl < 2) : lvl ≠ 2 := by
  intro he
  rw [he] at h
  exact lt_irrefl 2 h

/-- Under the program's `silentLvl < 2` guards, `debuggerLog` takes its
non-throwing branch. -/
theorem debuggerLog_of_lt {lvl : ℚ} (p : Bool) (m : String) (h : lvl < 2) :
    debuggerLog lvl p m = .ok (safeLog p (debuggerColorise m)) := by
  simp [debuggerLog, ne_two_of_lt_two h]

/-- The terminal output the websocket close handler produces. -/
def closeOutputs (lvl : ℚ) (st : ConnState) : List Output :=
  (if lvl < 2 then safeLog st.isPrompting (debuggerColorise "Websocket has been closed")
   else []) ++
  (if lvl < 2 then safeLog false (debuggerColorise "Closing debugger, press Ctrl+C to exit")
   else [])

/-- Evaluation of the websocket close handler: it never throws, closes the
REPL, clears the prompt flag and never touches the pending callback. -/
theorem onClose_eq (lvl : ℚ) (st : ConnState) :
    onClose lvl st = .ok ⟨false, true, [], closeOutputs lvl st⟩ := by
  by_cases h : lvl < 2
  · simp [onClose, onRlClose, closeOutputs, h, debuggerLog_of_lt _ _ h]
  · simp [onClose, onRlClose, closeOutputs, h]

/-- The terminal output the connection handler produces. -/
def connectionOutputs (lvl : ℚ) (p : Bool) : List Output :=
  if lvl < 2 then
    safeLog p (debuggerColorise "Connected to Discord over websocket, starting debug session")
  else []

/-- Evaluation of the connection handler: it never throws, leaves a
session with the prompt shown and no pending command, and sends the
on-connect payload exactly when it is a non-empty string. -/
theorem onConnection_eq (lvl : ℚ) (p : Bool) (oc : Option String) :
    onConnection lvl p oc =
      .ok ⟨⟨true, none⟩,
        (match oc with
         | some c => if c = "" then [] else [c]
         | none => []),
        connectionOutputs lvl p⟩ := by
  by_cases h : lvl < 2
  · simp [onConnection, connectionOutputs, h, debuggerLog_of_lt _ _ h]
  · simp [onConnection, connectionOutputs, h]

/-- The listening handler always succeeds. -/
theorem onListening_ok (lvl : ℚ) (p : Bool) (port : Nat) :
    ∃ outs, onListening lvl p port = .ok outs := by
  by_cases h : lvl < 2
  · exact ⟨safeLog p (debuggerColorise ("Listening for connections on port " ++ toString port)),
      by simp [onListening, h, debuggerLog_of_lt _ _ h]⟩
  · exact ⟨[], by simp [onListening, h]⟩

/-- Claim C1, counterexample: a reply whose pending callback throws is
caught, but the pending slot is NOT cleared — `finishCallback = undefined`
is skipped when `finishCallback(null, data)` throws, so the session does
not return to Idle as the claim states. -/
theorem message_callback_throw_keeps_pending_slot :
    (onMessage 0 ⟨true, some throwingCb⟩ "malformed").finishCallback ≠ none := by
  intro h
  have h2 : (onMessage 0 ⟨true, some throwingCb⟩ "malformed").finishCallback
      = some throwingCb := rfl
  rw [h] at h2
  exact Option.noConfusion h2

/-- Claim C1 (amended): an error thrown while invoking the pending
callback or while classifying an inbound message is caught and logged via
`debuggerError`, the process does not crash, `promptVisible` is restored
to `true` and the prompt is redrawn; when the classifier threw the state
is still Idle, but when the pending callback threw the pending slot
remains set rather than being cleared. -/
theorem message_error_caught_prompt_restored (lvl : ℚ) (p : Bool) (cb : Callback)
    (data : String) (e : JsError) :
    (cb none (some data) = .error e →
      (onMessage lvl ⟨p, some cb⟩ data).isPrompting = true ∧
      (onMessage lvl ⟨p, some cb⟩ data).finishCallback = some cb ∧
      (onMessage lvl ⟨p, some cb⟩ data).outputs =
        (debuggerError p e false).2 ++ [Output.displayPrompt]) ∧
    (discordLog lvl p data = .error e →
      (onMessage lvl ⟨p, none⟩ data).isPrompting = true ∧
      (onMessage lvl ⟨p, none⟩ data).finishCallback = none ∧
      (onMessage lvl ⟨p, none⟩ data).outputs =
        (debuggerError p e false).2 ++ [Output.displayPrompt]) := by
  constructor
  · intro h
    simp [onMessage, h]
  · intro h
    simp [onMessage, h]

/-- Witness for the C1 theorem at a throwing callback. -/
theorem message_error_caught_prompt_restored_witness :
    (onMessage 0 ⟨true, some throwingCb⟩ "bad reply").isPrompting = true ∧
    (onMessage 0 ⟨true, some throwingCb⟩ "bad reply").finishCallback = some throwingCb ∧
    (onMessage 0 ⟨true, some throwingCb⟩ "bad reply").outputs =
      (debuggerError true (.thrown "boom") false).2 ++ [Output.displayPrompt] :=
  (message_error_caught_prompt_restored 0 true throwingCb "bad reply" (.thrown "boom")).1 rfl

/-- Claim C2, counterexample: when the pending callback throws, the
pending slot is not cleared, so the state does not return to Idle. -/
theorem pending_slot_not_cleared_on_throw :
    (onMessage 0 ⟨true, some throwingCb⟩ "reply2").finishCallback.isSome = true := rfl

/-- Claim C2 (amended): an inbound message arriving while a Command is
outstanding is passed to the pending callback exactly once; the pending
slot is then cleared — so the state returns to Idle — exactly when the
callback returns normally, and remains set when the callback throws. -/
theorem pending_reply_delivered_once (lvl : ℚ) (p : Bool) (cb : Callback) (data : String) :
    (onMessage lvl ⟨p, some cb⟩ data).delivered = [data] ∧
    (∀ u, cb none (some data) = .ok u →
      (onMessage lvl ⟨p, some cb⟩ data).finishCallback = none) ∧
    (∀ e, cb none (some data) = .error e →
      (onMessage lvl ⟨p, some cb⟩ data).finishCallback = some cb) := by
  refine ⟨?_, ?_, ?_⟩
  · cases h : cb none (some data) <;> simp [onMessage, h]
  · intro u h
    simp [onMessage, h]
  · intro e h
    simp [onMessage, h]

/-- Witness for the C2 theorem at a normally-returning callback. -/
theorem pending_reply_delivered_once_witness :
    (onMessage 0 ⟨true, some noopCb⟩ "pong").delivered = ["pong"] ∧
    (onMessage 0 ⟨true, some noopCb⟩ "pong").finishCallback = none :=
  ⟨(pending_reply_delivered_once 0 true noopCb "pong").1,
   (pending_reply_delivered_once 0 true noopCb "pong").2.1 () rfl⟩

/-- Claim C4: an inbound message in the Idle state is never handed to a
command callback, leaves no command pending, keeps `promptVisible` true,
and is forwarded to the classifier `discordLog` for display as an
unsolicited log. -/
theorem idle_message_classified_as_log (lvl : ℚ) (data : String) :
    (onMessage lvl ⟨true, none⟩ data).delivered = [] ∧
    (onMessage lvl ⟨true, none⟩ data).isPrompting = true ∧
    (onMessage lvl ⟨true, none⟩ data).finishCallback = none ∧
    (∀ outs, discordLog lvl true data = .ok outs →
      (onMessage lvl ⟨true, none⟩ data).outputs = outs ++ [Output.displayPrompt]) := by
  refine ⟨?_, ?_, ?_, ?_⟩
  · cases h : discordLog lvl true data <;> simp [onMessage, h]
  · cases h : discordLog lvl true data <;> simp [onMessage, h]
  · cases h : discordLog lvl true data <;> simp [onMessage, h]
  · intro outs h
    simp [onMessage, h]

/-- Witness for the C4 theorem at `silentLvl = 2` with a raw payload. -/
theorem idle_message_classified_as_log_witness :
    (onMessage 2 ⟨true, none⟩ "hello").delivered = [] ∧
    (onMessage 2 ⟨true, none⟩ "hello").outputs =
      safeLog true "hello" ++ [Output.displayPrompt] := by
  have h := idle_message_classified_as_log 2 "hello"
  exact ⟨h.1, h.2.2.2 (safeLog true "hello") (by simp [discordLog])⟩

/-- Claim C3, counterexample: a non-Error reply payload is NOT displayed
as opaque pre-formatted text — the REPL writer routes it through
`discordColorise`, which parses it as a JSON envelope and colorizes it
with the `[Vendetta]` tag, so the displayed string differs from the raw
payload. -/
theorem writer_colorizes_reply_counterexample :
    writer false (.text errorEnvelope) =
      .ok (.str (colorise (COLORS.client.error "x") "Vendetta" COLORS.client.info), []) ∧
    colorise (COLORS.client.error "x") "Vendetta" COLORS.client.info ≠ errorEnvelope := by
  constructor
  · rfl
  · decide

/-- Claim C3 (amended): an Error-like completion payload is routed to
`debuggerError` (tagged Debugger, error color) and returned as the writer
value; any other payload is routed through `discordColorise` — parsed as
a JSON log envelope, colorized by its `level` and tagged Vendetta, and
throwing when the payload is not valid JSON — rather than being displayed
as opaque pre-formatted text. -/
theorem writer_routes_by_error_instance (p : Bool) (e : JsError) (s msg : String)
    (lvl : Int) :
    writer p (.err e) =
      .ok (.errVal e, safeLog p (colorise "Error" "Debugger" COLORS.debugger.error)) ∧
    (jsonParse s = .ok (.obj [("message", Json.str msg), ("level", Json.num lvl)]) →
      writer p (.text s) =
        .ok (.str (colorise
          (if lvl = 0 then COLORS.client.info msg
           else if lvl = 2 then COLORS.client.warning msg
           else if lvl = 3 then COLORS.client.error msg
           else msg) "Vendetta" COLORS.client.info), [])) ∧
    (∀ err, jsonParse s = .error err → writer p (.text s) = .error err) := by
  refine ⟨?_, ?_, ?_⟩
  · simp [writer, debuggerError]
  · intro h
    have hc : discordColorise s = .ok (colorise
        (if lvl = 0 then COLORS.client.info msg
         else if lvl = 2 then COLORS.client.warning msg
         else if lvl = 3 then COLORS.client.error msg
         else msg) "Vendetta" COLORS.client.info) := by
      unfold discordColorise
      rw [h]
      rfl
    simp [writer, hc]
  · intro err h
    have hc : discordColorise s = .error err := by
      unfold discordColorise
      rw [h]
    simp [writer, hc]

/-- Witness for the C3 theorem at an info-level envelope reply. -/
theorem writer_routes_by_error_instance_witness :
    writer false (.err (.thrown "w")) =
      .ok (.errVal (.thrown "w"),
        safeLog false (colorise "Error" "Debugger" COLORS.debugger.error)) ∧
    writer false (.text "\x7b\"message\":\"m\",\"level\":0\x7d") =
      .ok (.str (colorise (COLORS.client.info "m") "Vendetta" COLORS.client.info), []) := by
  have h := writer_routes_by_error_instance false (.thrown "w")
      "\x7b\"message\":\"m\",\"level\":0\x7d" "m" 0
  exact ⟨h.1, h.2.1 rfl⟩

/-- Claim C5: if the connection closes while a Command is outstanding, the
prompt loop is closed (`rl.close()` runs) and the stale pending callback
is never invoked. -/
theorem close_while_awaiting_closes_prompt_loop (lvl : ℚ) (st : ConnState)
    (_h : st.finishCallback.isSome = true) :
    ∃ r, onClose lvl st = .ok r ∧ r.rlClosed = true ∧ r.delivered = [] ∧
      r.isPrompting = false :=
  ⟨⟨false, true, [], closeOutputs lvl st⟩, onClose_eq lvl st, rfl, rfl, rfl⟩

/-- Witness for the C5 theorem with a concrete pending callback. -/
theorem close_while_awaiting_closes_prompt_loop_witness :
    ∃ r, onClose 0 ⟨true, some noopCb⟩ = .ok r ∧ r.rlClosed = true ∧
      r.delivered = [] ∧ r.isPrompting = false :=
  close_while_awaiting_closes_prompt_loop 0 ⟨true, some noopCb⟩ rfl

/-- Claim C6: at `silentLvl = 2` an unsolicited message is displayed raw
(no envelope parsing, no color); below 2, the envelope
`\x7b"message":"x","level":3\x7d` is parsed and displayed colorized as an
error with the Vendetta tag. -/
theorem silent_gates_unsolicited_display (p : Bool) (data : String) (lvl : ℚ) :
    discordLog 2 p data = .ok (safeLog p data) ∧
    (lvl < 2 → discordLog lvl p errorEnvelope =
      .ok (safeLog p (colorise (COLORS.client.error "x") "Vendetta" COLORS.client.info))) := by
  constructor
  · simp [discordLog]
  · intro h
    simp [discordLog, ne_two_of_lt_two h]
    rfl

/-- Witness for the C6 theorem at `silentLvl = 0`. -/
theorem silent_gates_unsolicited_display_witness :
    discordLog 2 false "raw" = .ok (safeLog false "raw") ∧
    discordLog 0 false errorEnvelope =
      .ok (safeLog false (colorise (COLORS.client.error "x") "Vendetta" COLORS.client.info)) :=
  ⟨(silent_gates_unsolicited_display false "raw" 0).1,
   (silent_gates_unsolicited_display false "raw" 0).2 (by norm_num)⟩

/-- Claim C7: an empty or whitespace-only input line sends nothing over
the connection, leaves the pending slot untouched, and leaves
`promptVisible` unchanged. -/
theorem empty_input_no_send (st : ConnState) (input : String) (cb : Callback)
    (h : jsTrim input = "") :
    (replEval st input cb).sent = [] ∧
    (replEval st input cb).finishCallback = st.finishCallback ∧
    (replEval st input cb).isPrompting = st.isPrompting := by
  cases h1 : cb none none with
  | ok u =>
    refine ⟨?_, ?_, ?_⟩ <;> simp [replEval, h, h1]
  | error e =>
    cases h2 : cb (some e) none <;> (refine ⟨?_, ?_, ?_⟩ <;> simp [replEval, h, h1, h2])

/-- Witness for the C7 theorem at a whitespace-only line. -/
theorem empty_input_no_send_witness :
    (replEval ⟨true, none⟩ " \t " noopCb).sent = [] ∧
    (replEval ⟨true, none⟩ " \t " noopCb).finishCallback = none ∧
    (replEval ⟨true, none⟩ " \t " noopCb).isPrompting = true :=
  empty_input_no_send ⟨true, none⟩ " \t " noopCb rfl

/-- Claim C8: a configured, non-empty on-connect payload is sent exactly
once by the connection handler, which finishes with the prompt shown and
no operator command pending (so the payload precedes any command). -/
theorem onconnect_payload_sent_once (lvl : ℚ) (p : Bool) (code : String)
    (h : code ≠ "") :
    ∃ r, onConnection lvl p (some code) = .ok r ∧ r.sent = [code] ∧
      r.state.finishCallback = none ∧ r.state.isPrompting = true := by
  refine ⟨⟨⟨true, none⟩, [code], connectionOutputs lvl p⟩, ?_, rfl, rfl, rfl⟩
  have he := onConnection_eq lvl p (some code)
  simpa [h] using he

/-- Witness for the C8 theorem with payload `init()`. -/
theorem onconnect_payload_sent_once_witness :
    ∃ r, onConnection 0 false (some "init()") = .ok r ∧ r.sent = ["init()"] ∧
      r.state.finishCallback = none ∧ r.state.isPrompting = true :=
  onconnect_payload_sent_once 0 false "init()" (by decide)

/-- Claim C9, counterexample: the startup validation accepts the
non-integer value `1/2` (only `NaN` and the range bounds are checked),
and at that accepted value the welcome banner is printed although
`silentLevel` does not equal 0 — so "printed iff equal to 0" fails over
the accepted values. -/
theorem banner_shown_at_half_counterexample :
    silentAccepted (1/2) = true ∧ welcomeBannerShown (1/2) = true ∧ (1/2 : ℚ) ≠ 0 := by
  refine ⟨?_, ?_, ?_⟩
  · norm_num [silentAccepted]
  · norm_num [welcomeBannerShown]
  · norm_num

/-- Claim C9 (amended): the welcome banner is printed iff `silentLvl < 1`;
restricted to the integer values accepted by the validation this
coincides with `silentLvl = 0`, but the validation also accepts
non-integers in `[0, 2]` for which the two conditions differ. -/
theorem banner_iff_silent_below_one (s : ℚ) (n : ℤ) :
    (welcomeBannerShown s = true ↔ s < 1) ∧
    (s = (n : ℚ) → silentAccepted s = true →
      (welcomeBannerShown s = true ↔ s = 0)) := by
  constructor
  · by_cases h : s < 1 <;> simp [welcomeBannerShown, h]
  · rintro rfl hacc
    have h0 : (0 : ℤ) ≤ n := by
      by_contra hneg
      push_neg at hneg
      have hq : (n : ℚ) < 0 := by exact_mod_cast hneg
      simp [silentAccepted, hq] at hacc
    constructor
    · intro hb
      have hlt : (n : ℚ) < 1 := by
        by_contra hge
        simp [welcomeBannerShown, hge] at hb
      have hlt' : n < 1 := by exact_mod_cast hlt
      have hz : n = 0 := by omega
      rw [hz]
      norm_num
    · intro hz
      have hz' : n = 0 := by exact_mod_cast hz
      rw [hz']
      norm_num [welcomeBannerShown]

/-- Witness for the C9 theorem at the accepted integer value 0. -/
theorem banner_iff_silent_below_one_witness : welcomeBannerShown 0 = true := by
  have h := (banner_iff_silent_below_one 0 0).2 (by norm_num) (by norm_num [silentAccepted])
  exact h.mpr rfl

/-- Claim C10: every call the program makes to `debuggerLog` — in the
listening, connection, REPL-close and websocket-close handlers — sits
under a `silentLvl < 2` guard, under which `debuggerLog` takes its
non-throwing branch; the `silentLvl === 2` branch (which reads the
undefined `messag` and throws a ReferenceError) is unreachable, so none
of those handlers ever throws. -/
theorem debuggerLog_always_guarded :
    (∀ (lvl : ℚ) (p : Bool) (m : String), lvl < 2 →
      debuggerLog lvl p m = .ok (safeLog p (debuggerColorise m))) ∧
    (∀ (p : Bool) (m : String),
      debuggerLog 2 p m = .error (.referenceError "messag is not defined")) ∧
    (∀ (lvl : ℚ) (p : Bool) (port : Nat), ∃ outs, onListening lvl p port = .ok outs) ∧
    (∀ (lvl : ℚ) (p : Bool) (oc : Option String), ∃ r, onConnection lvl p oc = .ok r) ∧
    (∀ (lvl : ℚ) (st : ConnState), ∃ r, onClose lvl st = .ok r) := by
  refine ⟨fun lvl p m h => debuggerLog_of_lt p m h, ?_, onListening_ok, ?_, ?_⟩
  · intro p m
    simp [debuggerLog]
  · intro lvl p oc
    exact ⟨_, onConnection_eq lvl p oc⟩
  · intro lvl st
    exact ⟨_, onClose_eq lvl st⟩

/-- Witness for the C10 theorem at `silentLvl = 0`. -/
theorem debuggerLog_always_guarded_witness :
    debuggerLog 0 true "notice" = .ok (safeLog true (debuggerColorise "notice")) :=
  debuggerLog_always_guarded.1 0 true "notice" (by norm_num)

end VendettaDebug
